import Mathlib

/-!
# Verification of the mapty workout tracker (src/script.js)

A shallow embedding of the workout domain model and application controller of
`src/script.js`. JavaScript values that flow through the workout collection and
the persistence layer are modelled by the inductive `JVal`; numbers are
rationals (`ℚ`), with the non-finite doubles (`NaN`, `±Infinity`) that matter
for form validation modelled separately by `JsNum`. Runtime `Date` objects are
modelled by `JsDate`, carrying exactly the observations the source uses:
`getTime` (`ms`), `getMonth` (`month`), `getDate` (`day`) and `toJSON` (`iso`).
Side effects (map calls, DOM rendering, `localStorage` writes, alerts) are
reified as an `Effect` list; thrown runtime errors are `Except`/`Option`
`JsError` values.
-/

namespace Mapty

/-- Models a runtime `Date` object by the observations `script.js` performs on
it: `getTime()` (epoch milliseconds), `getMonth()` (0-based month),
`getDate()` (day of month) and `toJSON()` (the ISO-8601 string used by
`JSON.stringify`). -/
structure JsDate where
  ms : Int
  month : Nat
  day : Nat
  iso : String
deriving DecidableEq, Repr

/-- A JavaScript value as it appears in the workout collection and in the
persisted blob: primitives, `Date` objects, arrays and plain objects (fields
in property-insertion order, which `JSON.stringify` preserves). -/
inductive JVal where
  | null
  | undefined
  | bool (b : Bool)
  | num (q : ℚ)
  | str (s : String)
  | date (d : JsDate)
  | arr (elems : List JVal)
  | obj (fields : List (String × JVal))

/-- A JavaScript number after `+input.value` coercion: a finite double
(modelled as a rational) or one of the non-finite values `NaN`, `Infinity`,
`-Infinity`. -/
inductive JsNum where
  | fin (q : ℚ)
  | nan
  | inf
  | ninf
deriving DecidableEq, Repr

/-- Models `Number.isFinite`. -/
def isFiniteNum : JsNum → Bool
  | .fin _ => true
  | _ => false

/-- Models the comparison `input > 0` on a JavaScript number
(`NaN > 0` is `false`, `Infinity > 0` is `true`). -/
def jsPos : JsNum → Bool
  | .fin q => decide (0 < q)
  | .inf => true
  | _ => false

/-- The value of a finite JavaScript number (junk `0` on the non-finite
values, which validation has already excluded wherever this is applied). -/
def finVal : JsNum → ℚ
  | .fin q => q
  | _ => 0

/-- The month-name table of `Workout._setDescription` (script.js line 23). -/
def months : List String :=
  ["January", "February", "March", "April", "May", "June", "July",
   "August", "September", "October", "November", "December"]

/-- Models `this.type[0].toUpperCase() + this.type.slice(1)`. -/
def capFirst (s : String) : String := (s.take 1).toUpper ++ s.drop 1

/-- Models `Workout._setDescription` (script.js lines 21-28): the template
literal with its literal newlines and indentation, the month name looked up in
`months` (out-of-range yields the string "undefined", as JavaScript
interpolates `undefined`), and the day number. -/
def descOf (t : String) (d : JsDate) : String :=
  capFirst t ++ "\n      on\n      " ++ months.getD d.month "undefined"
    ++ "\n      " ++ toString d.day

/-- The integer `n` chosen by `Number.prototype.toFixed(1)` per the ECMAScript
specification: the integer with `n / 10` as close to `x` as possible, the
larger one on a tie, i.e. `⌊10x + 1/2⌋`. -/
def jsToFixed1Int (x : ℚ) : Int := Int.floor (10 * x + 1 / 2)

/-- Models `x.toFixed(1)`: the decimal string with one fractional digit
denoting `jsToFixed1Int x / 10`. -/
def jsToFixed1Str (x : ℚ) : String :=
  let n := jsToFixed1Int x
  (if n < 0 then "-" else "") ++ toString (n.natAbs / 10) ++ "."
    ++ toString (n.natAbs % 10)

/-- The numeric value denoted by the string `x.toFixed(1)`. -/
def jsToFixed1Val (x : ℚ) : ℚ := (jsToFixed1Int x : ℚ) / 10

/-- Modelled from the spec: `round(v, 1)`, rounding to one decimal place using
Mathlib's `round` (round half up). Used as the specification side of the
refinement claims about `pace` and `speed`. -/
def round1 (x : ℚ) : ℚ := ((round (10 * x) : Int) : ℚ) / 10

/-- Models `new Running(coords, distance, duration, cadence)` constructed at
date `now` (script.js lines 11-19 and 31-45). Fields are listed in JavaScript
property-insertion order: the base-class fields `date` and `id`
(`id = this.date.getTime()`), then `coords`, `distance`, `duration` from the
`Workout` constructor, then `type`, `cadence`, the `pace` computed by
`calcPace` (`(this.duration / this.distance).toFixed(1)`, a string), and the
`description` set by `_setDescription`. -/
def mkRunning (now : JsDate) (lat lng dist du cad : ℚ) : JVal :=
  .obj [("date", .date now), ("id", .num (now.ms : ℚ)),
        ("coords", .arr [.num lat, .num lng]),
        ("distance", .num dist), ("duration", .num du),
        ("type", .str "running"), ("cadence", .num cad),
        ("pace", .str (jsToFixed1Str (du / dist))),
        ("description", .str (descOf "running" now))]

/-- Models `new Cycling(coords, distance, duration, elevation)` constructed at
date `now` (script.js lines 11-19 and 47-61); `speed` is
`(this.distance / (this.duration / 60)).toFixed(1)`, a string. -/
def mkCycling (now : JsDate) (lat lng dist du elev : ℚ) : JVal :=
  .obj [("date", .date now), ("id", .num (now.ms : ℚ)),
        ("coords", .arr [.num lat, .num lng]),
        ("distance", .num dist), ("duration", .num du),
        ("type", .str "cycling"), ("elevation", .num elev),
        ("speed", .str (jsToFixed1Str (dist / (du / 60)))),
        ("description", .str (descOf "cycling" now))]

/-- Models property access `w[k]`: the field value of a plain object, or
`undefined` when absent or when `w` is not an object. -/
def getField (w : JVal) (k : String) : JVal :=
  match w with
  | .obj fs => (fs.lookup k).getD .undefined
  | _ => .undefined

/-- A runtime error thrown by the script: a `SyntaxError` from `JSON.parse`,
or a `TypeError` from dereferencing a property of `undefined`/`null` (or
calling a missing method). -/
inductive JsError where
  | syntaxError
  | typeError
deriving DecidableEq, Repr

/-- A string stored in `localStorage` under the key `workouts`: either the
`JSON.stringify` serialization of a value (identified by the value it parses
back to) or a string `JSON.parse` rejects. -/
inductive Blob where
  | wellFormed (v : JVal)
  | malformed

/-- A side effect issued by the controller: Leaflet map calls (`setView`,
`L.tileLayer(...).addTo`, marker + popup creation), DOM list rendering,
`localStorage.setItem`, `alert`, and hiding the form. -/
inductive Effect where
  | setView (coords : JVal) (zoom : ℚ)
  | addTileLayer (url : String)
  | renderWorkout (w : JVal)
  | renderWorkoutMarker (w : JVal)
  | setItem (key : String) (blob : Blob)
  | alertUser (msg : String)
  | hideForm

mutual

/-- Models `JSON.parse(JSON.stringify v)` for a value in array/field position:
`Date` objects become their ISO strings (via `toJSON`), `undefined` array
elements become `null`, `undefined`-valued object fields are dropped, and
everything JSON-representable passes through unchanged. -/
def jsonify : JVal → JVal
  | .null => .null
  | .undefined => .null
  | .bool b => .bool b
  | .num q => .num q
  | .str s => .str s
  | .date d => .str d.iso
  | .arr es => .arr (jsonifyList es)
  | .obj fs => .obj (jsonifyFields fs)

/-- `jsonify` mapped over the elements of an array. -/
def jsonifyList : List JVal → List JVal
  | [] => []
  | v :: vs => jsonify v :: jsonifyList vs

/-- `jsonify` over the fields of an object; `undefined`-valued fields are
dropped, as `JSON.stringify` omits them. -/
def jsonifyFields : List (String × JVal) → List (String × JVal)
  | [] => []
  | (_, .undefined) :: rest => jsonifyFields rest
  | (k, v) :: rest => (k, jsonify v) :: jsonifyFields rest

end

/-- Models JavaScript truthiness (`if (!data) return` in `_getLocalStorage`):
`null`, `undefined`, `false`, `0` and `""` are falsy; objects and arrays
(including `[]`) are truthy. -/
def jsTruthy : JVal → Bool
  | .null => false
  | .undefined => false
  | .bool b => b
  | .num q => !(decide (q = 0))
  | .str s => !(decide (s = ""))
  | .date _ => true
  | .arr _ => true
  | .obj _ => true

/-- Models `JSON.parse(localStorage.getItem(k))`: a missing key gives `null`
(and `JSON.parse(null)` parses the string "null" to `null`); a well-formed
blob parses to its value; a malformed blob throws a `SyntaxError`. -/
def jsonParse (stored : Option Blob) : Except JsError JVal :=
  match stored with
  | none => .ok .null
  | some (.wellFormed v) => .ok v
  | some .malformed => .error .syntaxError

/-- The render replay of `_getLocalStorage`'s `forEach` (script.js lines
126-129): for each stored record in order, `_renderWorkout` then
`_renderWorkoutMarker`. -/
def hydrationRenders : List JVal → List Effect
  | [] => []
  | w :: ws => .renderWorkout w :: .renderWorkoutMarker w :: hydrationRenders ws

/-- Models `App._getLocalStorage` (script.js lines 120-130): parse the stored
blob (a `SyntaxError` propagates — there is no try/catch); if the parsed data
is falsy, return leaving the workouts unchanged; otherwise replace the
workouts with the parsed array and replay rendering for each record in order.
`forEach` on a truthy non-array throws a `TypeError`. The result pairs the
new workout collection with the effects issued. -/
def getLocalStorage (stored : Option Blob) (workouts : List JVal) :
    Except JsError (List JVal × List Effect) :=
  match jsonParse stored with
  | .error e => .error e
  | .ok data =>
    if jsTruthy data then
      match data with
      | .arr ws => .ok (ws, hydrationRenders ws)
      | _ => .error .typeError
    else .ok (workouts, [])

/-- Models `App._setLocalStorage` (script.js lines 116-118): the single
`localStorage.setItem('workouts', JSON.stringify(this.#workouts))` effect; the
stored string is well-formed and parses back to `jsonify` of the array. -/
def setLocalStorageEff (workouts : List JVal) : Effect :=
  .setItem "workouts" (.wellFormed (jsonify (.arr workouts)))

/-- The blob-store state after `_setLocalStorage` has written `workouts`:
the persistence adapter's `save`. -/
def saveBlob (workouts : List JVal) : Option Blob :=
  some (.wellFormed (jsonify (.arr workouts)))

/-- The persistence adapter's `load`: the workout collection
`_getLocalStorage` leaves in `this.#workouts` when starting from an empty
session store. -/
def loadRecords (stored : Option Blob) : Except JsError (List JVal) :=
  (getLocalStorage stored []).map Prod.fst

/-- The alert message of `_newWorkout`'s validation failure branches
(script.js lines 157 and 169, spelling as in the source). -/
def alertMsg : String := "inputs have to be posetive numbers"

/-- Models `this.#mapZoomLevel` (script.js line 67). -/
def mapZoomLevel : ℚ := 17

/-- Models the `validInputs` closure of `_newWorkout` (script.js lines
135-136): every input is a finite number. -/
def validInputsB (inputs : List JsNum) : Bool := inputs.all isFiniteNum

/-- Models the `allPositive` closure of `_newWorkout` (script.js line 137):
every input compares `> 0`. -/
def allPositiveB (inputs : List JsNum) : Bool := inputs.all jsPos

/-- The outcome of a form submission: the workout collection afterwards, the
effects issued (in order) before any throw, and the error thrown, if any. -/
structure SubmitResult where
  workouts : List JVal
  effects : List Effect
  err : Option JsError

/-- The tail of `_newWorkout` after the `workout` variable is settled
(script.js lines 174-181): push onto `this.#workouts`, `_setLocalStorage`,
`_renderWorkoutMarker`, `_renderWorkout`, `_hideForm`. When `workout` is
`undefined` (type neither running nor cycling), `_renderWorkoutMarker`
dereferences `workout.type` and throws a `TypeError` — after the push and the
`localStorage` write have already happened. -/
def pushPersistRender (w : JVal) (workouts : List JVal) : SubmitResult :=
  let ws := workouts ++ [w]
  match w with
  | .undefined => ⟨ws, [setLocalStorageEff ws], some .typeError⟩
  | _ => ⟨ws, [setLocalStorageEff ws, .renderWorkoutMarker w, .renderWorkout w,
               .hideForm], none⟩

/-- Models `App._newWorkout` (script.js lines 132-182) after the form fields
have been read and coerced: `now` is the construction date, `(lat, lng)` the
pending map-click location, `type` the type selector's value, and the four
`JsNum`s the coerced field values. A failed validation alerts and returns
with the collection unchanged; a passing one constructs the variant and runs
the push/persist/render tail. A type that is neither branch leaves `workout`
undefined and still runs the tail. -/
def newWorkout (now : JsDate) (lat lng : ℚ) (type : String)
    (distance duration cadence elevation : JsNum)
    (workouts : List JVal) : SubmitResult :=
  if type = "running" then
    if validInputsB [distance, duration, cadence]
        && allPositiveB [distance, duration, cadence] then
      pushPersistRender
        (mkRunning now lat lng (finVal distance) (finVal duration)
          (finVal cadence)) workouts
    else ⟨workouts, [.alertUser alertMsg], none⟩
  else if type = "cycling" then
    if validInputsB [distance, duration, elevation]
        && allPositiveB [distance, duration] then
      pushPersistRender
        (mkCycling now lat lng (finVal distance) (finVal duration)
          (finVal elevation)) workouts
    else ⟨workouts, [.alertUser alertMsg], none⟩
  else
    pushPersistRender .undefined workouts

/-- The tile-layer URL of `_loadMap` (script.js line 97). -/
def tileUrl : String := "https://tile.openstreetmap.fr/hot/{z}/{x}/{y}.png"

/-- Models `App._loadMap` (script.js lines 89-104). The position argument's
`coords` (latitude/longitude) are destructured — with a default when the
argument is `undefined` — but never used: the view is set at the hard-coded
`coords = [36.27, 49.99435]` with `this.#mapZoomLevel`, then the tile layer is
added. -/
def loadMap (position : Option (ℚ × ℚ)) : List Effect :=
  let _latlng := position.getD (0, 0)
  [.setView (.arr [.num (36.27 : ℚ), .num (49.99435 : ℚ)]) mapZoomLevel,
   .addTileLayer tileUrl]

/-- Models the `App` constructor's startup path (script.js lines 71-80):
`_loadMap()` is called with no argument, `_setMarkerIcon` only stores the
icon (no modelled effect), then `_getLocalStorage` hydrates the session
store. The result is the hydrated collection and the full ordered effect
trace. -/
def appInit (stored : Option Blob) : Except JsError (List JVal × List Effect) :=
  match getLocalStorage stored [] with
  | .ok (ws, effs) => .ok (ws, loadMap none ++ effs)
  | .error e => .error e

/-- Models `work.id === id` in `_moveToPopup`'s `find` callback: the record's
`id` field compared to the clicked element's numeric `data-id`. -/
def idMatches (w : JVal) (id : ℚ) : Bool :=
  match getField w "id" with
  | .num q => decide (q = id)
  | _ => false

/-- Models `App._moveToPopup` (script.js lines 262-271) once a `.workout`
element with numeric id `id` was clicked: `find` the record in
`this.#workouts`; when found, `setView` at its coordinates with the zoom
level; when missing, `find` yields `undefined` and `workoutObj.coords`
throws a `TypeError`. -/
def moveToPopup (workouts : List JVal) (id : ℚ) : Except JsError (List Effect) :=
  match workouts.find? (fun w => idMatches w id) with
  | some w => .ok [.setView (getField w "coords") mapZoomLevel]
  | none => .error .typeError

/-- A fixed sample construction date (epoch 0, January 1) used by concrete
witnesses. -/
def d0 : JsDate := ⟨0, 0, 1, "1970-01-01T00:00:00.000Z"⟩

/-- A second sample construction date, one millisecond later. -/
def d1 : JsDate := ⟨1, 0, 1, "1970-01-01T00:00:00.001Z"⟩

theorem jsonifyList_eq_map (ws : List JVal) : jsonifyList ws = ws.map jsonify := by
  induction ws with
  | nil => rfl
  | cons v vs ih => simp [jsonifyList, ih]

/-- C4: for all valid inputs (distance > 0, duration > 0, cadence > 0), a
constructed running record's `pace` field is the `toFixed(1)` string of
`duration / distance`, computed at construction, and the value that string
denotes equals `duration / distance` rounded to one decimal place
(`round1`, the spec's `round(·, 1)`). -/
theorem running_pace_rounds_one_decimal (now : JsDate) (lat lng d du c : ℚ)
    (hd : 0 < d) (hdu : 0 < du) (hc : 0 < c) :
    getField (mkRunning now lat lng d du c) "pace"
        = .str (jsToFixed1Str (du / d))
      ∧ jsToFixed1Val (du / d) = round1 (du / d) := by
  refine ⟨rfl, ?_⟩
  simp [jsToFixed1Val, jsToFixed1Int, round1, round_eq]

/-- Witness for C4 at distance 5, duration 25, cadence 180: the hypotheses
hold and the pace field is the string for 25/5 rounded. -/
theorem running_pace_rounds_one_decimal_witness :
    (0 : ℚ) < 5 ∧ (0 : ℚ) < 25 ∧ (0 : ℚ) < 180
      ∧ (getField (mkRunning d0 0 0 5 25 180) "pace"
          = .str (jsToFixed1Str ((25 : ℚ) / 5))
        ∧ jsToFixed1Val ((25 : ℚ) / 5) = round1 ((25 : ℚ) / 5)) :=
  ⟨by norm_num, by norm_num, by norm_num,
   running_pace_rounds_one_decimal d0 0 0 5 25 180 (by norm_num) (by norm_num)
     (by norm_num)⟩

/-- C5: for all valid inputs (distance > 0, duration > 0, any finite
elevation), a constructed cycling record's `speed` field is the `toFixed(1)`
string of `distance / (duration / 60)`, computed at construction, and the
value that string denotes equals `distance / (duration / 60)` rounded to one
decimal place. -/
theorem cycling_speed_rounds_one_decimal (now : JsDate) (lat lng d du elev : ℚ)
    (hd : 0 < d) (hdu : 0 < du) :
    getField (mkCycling now lat lng d du elev) "speed"
        = .str (jsToFixed1Str (d / (du / 60)))
      ∧ jsToFixed1Val (d / (du / 60)) = round1 (d / (du / 60)) := by
  refine ⟨rfl, ?_⟩
  simp [jsToFixed1Val, jsToFixed1Int, round1, round_eq]

/-- Witness for C5 at distance 30, duration 90, elevation 200. -/
theorem cycling_speed_rounds_one_decimal_witness :
    (0 : ℚ) < 30 ∧ (0 : ℚ) < 90
      ∧ (getField (mkCycling d0 0 0 30 90 200) "speed"
          = .str (jsToFixed1Str ((30 : ℚ) / ((90 : ℚ) / 60)))
        ∧ jsToFixed1Val ((30 : ℚ) / ((90 : ℚ) / 60))
          = round1 ((30 : ℚ) / ((90 : ℚ) / 60))) :=
  ⟨by norm_num, by norm_num,
   cycling_speed_rounds_one_decimal d0 0 0 30 90 200 (by norm_num) (by norm_num)⟩

/-- C9: `_loadMap` centers the view at the hard-coded `[36.27, 49.99435]`
with zoom 17 for every argument (including a successful geolocation
position): the destructured latitude/longitude are never used, so the effect
trace is independent of the input. -/
theorem loadMap_center_fixed :
    (∀ p : Option (ℚ × ℚ),
      loadMap p = [.setView (.arr [.num (36.27 : ℚ), .num (49.99435 : ℚ)])
                     (17 : ℚ),
                   .addTileLayer tileUrl])
      ∧ ∀ p q : Option (ℚ × ℚ), loadMap p = loadMap q := by
  exact ⟨fun p => rfl, fun p q => rfl⟩

/-- C6: each of the four invalid submissions — running with distance 0,
running with duration -1, running with cadence `NaN`, cycling with elevation
`Infinity` — takes the validation-failure branch: the only effect is the
user alert, no record is created, the session store is unchanged, and
nothing is thrown, whatever the remaining field values are. -/
theorem validation_rejects_invalid_inputs :
    (∀ (now : JsDate) (lat lng : ℚ) (du c e : JsNum) (ws : List JVal),
      newWorkout now lat lng "running" (.fin 0) du c e ws
        = ⟨ws, [.alertUser alertMsg], none⟩)
    ∧ (∀ (now : JsDate) (lat lng : ℚ) (d c e : JsNum) (ws : List JVal),
      newWorkout now lat lng "running" d (.fin (-1)) c e ws
        = ⟨ws, [.alertUser alertMsg], none⟩)
    ∧ (∀ (now : JsDate) (lat lng : ℚ) (d du e : JsNum) (ws : List JVal),
      newWorkout now lat lng "running" d du .nan e ws
        = ⟨ws, [.alertUser alertMsg], none⟩)
    ∧ (∀ (now : JsDate) (lat lng : ℚ) (d du c : JsNum) (ws : List JVal),
      newWorkout now lat lng "cycling" d du c .inf ws
        = ⟨ws, [.alertUser alertMsg], none⟩) := by
  refine ⟨?_, ?_, ?_, ?_⟩ <;>
    · intros
      norm_num [newWorkout, validInputsB, allPositiveB, isFiniteNum, jsPos]
      try (intro h; exact absurd h (by decide))

/-- The `id` field of a workout record, as the number `work.id === id`
compares (junk `0` when the field is not a number). -/
def workoutId (w : JVal) : ℚ :=
  match getField w "id" with
  | .num q => q
  | _ => 0

/-- C7: a record's `id` is `this.date.getTime()`, the integer millisecond
epoch of its creation date; for two records of the same session the one
created at a strictly later millisecond has the strictly larger id, so ids
are unique up to same-millisecond collision. -/
theorem workout_id_from_timestamp (dA dB : JsDate) (lat lng dist du c : ℚ)
    (h : dA.ms < dB.ms) :
    workoutId (mkRunning dA lat lng dist du c) = ((dA.ms : Int) : ℚ)
    ∧ workoutId (mkCycling dA lat lng dist du c) = ((dA.ms : Int) : ℚ)
    ∧ workoutId (mkRunning dA lat lng dist du c)
        < workoutId (mkRunning dB lat lng dist du c)
    ∧ workoutId (mkRunning dA lat lng dist du c)
        ≠ workoutId (mkRunning dB lat lng dist du c) := by
  have hA : workoutId (mkRunning dA lat lng dist du c) = ((dA.ms : Int) : ℚ) := rfl
  have hB : workoutId (mkRunning dB lat lng dist du c) = ((dB.ms : Int) : ℚ) := rfl
  refine ⟨hA, rfl, ?_, ?_⟩
  · rw [hA, hB]; exact_mod_cast h
  · rw [hA, hB]; exact_mod_cast h.ne

/-- Witness for C7 at the sample dates `d0` (epoch 0) and `d1` (epoch 1). -/
theorem workout_id_from_timestamp_witness :
    d0.ms < d1.ms
    ∧ (workoutId (mkRunning d0 0 0 5 25 180) = ((d0.ms : Int) : ℚ)
      ∧ workoutId (mkCycling d0 0 0 5 25 180) = ((d0.ms : Int) : ℚ)
      ∧ workoutId (mkRunning d0 0 0 5 25 180)
          < workoutId (mkRunning d1 0 0 5 25 180)
      ∧ workoutId (mkRunning d0 0 0 5 25 180)
          ≠ workoutId (mkRunning d1 0 0 5 25 180)) :=
  ⟨by decide, workout_id_from_timestamp d0 d1 0 0 5 25 180 (by decide)⟩

/-- C2 counterexample: with a malformed blob stored under the key, `load`
does not return an empty sequence — the `SyntaxError` from `JSON.parse`
propagates (there is no try/catch in `_getLocalStorage`). -/
theorem load_malformed_raises :
    loadRecords (some .malformed) = .error .syntaxError
      ∧ loadRecords (some .malformed) ≠ .ok [] := by
  refine ⟨rfl, ?_⟩
  intro h
  rw [show loadRecords (some .malformed) = .error .syntaxError from rfl] at h
  exact Except.noConfusion h

/-- C2 amended: when the key is absent, `load` returns the empty sequence
and raises no error; when the stored blob is malformed, the `SyntaxError`
from `JSON.parse` propagates out of `_getLocalStorage`, whatever the prior
session state. -/
theorem load_absent_empty_malformed_raises :
    loadRecords none = .ok []
      ∧ ∀ ws : List JVal,
        getLocalStorage (some .malformed) ws = .error .syntaxError :=
  ⟨rfl, fun _ => rfl⟩

/-- C3: evaluated at a session store holding one running record with id 0
(created at epoch 0), clicking a list entry with `data-id` 999 makes
`_moveToPopup` throw a `TypeError` (`find` yields `undefined` and
`workoutObj.coords` is dereferenced) instead of the no-op the spec requires;
with the matching id 0 it issues the `setView` call at the record's
coordinates. -/
theorem moveToPopup_missing_id_throws :
    moveToPopup [mkRunning d0 10 20 5 25 180] 999 = .error .typeError
      ∧ moveToPopup [mkRunning d0 10 20 5 25 180] 0
        = .ok [.setView (.arr [.num 10, .num 20]) mapZoomLevel] := by
  exact ⟨rfl, rfl⟩

theorem setItem_not_mem_hydrationRenders (k : String) (b : Blob)
    (ws : List JVal) : Effect.setItem k b ∉ hydrationRenders ws := by
  induction ws with
  | nil => simp [hydrationRenders]
  | cons w ws ih => simp [hydrationRenders, ih]

/-- C8: starting the app over a blob store holding a well-formed array of
records hydrates the session store with exactly those records, and the
startup effect trace is the map setup followed by, for each record in the
original stored order, the list-entry render then the map-marker render; no
`localStorage.setItem` occurs anywhere in the trace. -/
theorem startup_replays_renders_without_persist (ws : List JVal) :
    appInit (some (.wellFormed (.arr ws)))
        = .ok (ws, loadMap none ++ hydrationRenders ws)
      ∧ ∀ (k : String) (b : Blob),
        Effect.setItem k b ∉ loadMap none ++ hydrationRenders ws := by
  refine ⟨rfl, ?_⟩
  intro k b h
  rcases List.mem_append.mp h with h1 | h2
  · simp [loadMap] at h1
  · exact setItem_not_mem_hydrationRenders k b ws h2

/-- C10: when the type selector holds a value that is neither "running" nor
"cycling", `_newWorkout` runs no validation (no alert), appends `undefined`
to the workout collection, and writes the serialization of the collection
containing that `undefined` entry to the blob store; the subsequent
`_renderWorkoutMarker(undefined)` then throws a `TypeError`, after the push
and the write have happened. -/
theorem unknown_type_skips_validation (type : String)
    (h1 : type ≠ "running") (h2 : type ≠ "cycling") (now : JsDate)
    (lat lng : ℚ) (d du c e : JsNum) (ws : List JVal) :
    newWorkout now lat lng type d du c e ws
      = ⟨ws ++ [.undefined],
         [.setItem "workouts" (.wellFormed (jsonify (.arr (ws ++ [.undefined]))))],
         some .typeError⟩ := by
  simp [newWorkout, h1, h2, pushPersistRender, setLocalStorageEff]

/-- Witness for C10 at the type "hiking" with an empty session store. -/
theorem unknown_type_skips_validation_witness :
    "hiking" ≠ "running" ∧ "hiking" ≠ "cycling"
      ∧ newWorkout d0 0 0 "hiking" (.fin 5) (.fin 25) (.fin 180) (.fin 0) []
        = ⟨[.undefined],
           [.setItem "workouts" (.wellFormed (jsonify (.arr [JVal.undefined])))],
           some .typeError⟩ :=
  ⟨by decide, by decide,
   unknown_type_skips_validation "hiking" (by decide) (by decide) d0 0 0
     (.fin 5) (.fin 25) (.fin 180) (.fin 0) []⟩

/-- The flattened (JSON round-tripped) form of a running record: identical to
`mkRunning` field-for-field except that `date` holds the ISO string rather
than the `Date` object. -/
def flatRunning (now : JsDate) (lat lng dist du cad : ℚ) : JVal :=
  .obj [("date", .str now.iso), ("id", .num (now.ms : ℚ)),
        ("coords", .arr [.num lat, .num lng]),
        ("distance", .num dist), ("duration", .num du),
        ("type", .str "running"), ("cadence", .num cad),
        ("pace", .str (jsToFixed1Str (du / dist))),
        ("description", .str (descOf "running" now))]

/-- The flattened form of a cycling record: identical to `mkCycling` except
for the `date` field. -/
def flatCycling (now : JsDate) (lat lng dist du elev : ℚ) : JVal :=
  .obj [("date", .str now.iso), ("id", .num (now.ms : ℚ)),
        ("coords", .arr [.num lat, .num lng]),
        ("distance", .num dist), ("duration", .num du),
        ("type", .str "cycling"), ("elevation", .num elev),
        ("speed", .str (jsToFixed1Str (dist / (du / 60)))),
        ("description", .str (descOf "cycling" now))]

/-- C1 counterexample: the round trip is not the identity on a freshly
constructed record — the `date` field, a `Date` object, is serialized to its
ISO string by `JSON.stringify` and not revived by `JSON.parse`. -/
theorem save_load_not_identity :
    loadRecords (saveBlob [mkRunning d0 0 0 5 25 180])
      ≠ .ok [mkRunning d0 0 0 5 25 180] := by
  have h1 : loadRecords (saveBlob [mkRunning d0 0 0 5 25 180])
      = .ok [flatRunning d0 0 0 5 25 180] := by
    simp [loadRecords, saveBlob, getLocalStorage, jsonParse, jsTruthy,
          Except.map, jsonify, jsonifyList, jsonifyFields, mkRunning,
          flatRunning]
  intro h
  rw [h1] at h
  simp [flatRunning, mkRunning] at h

/-- C1 amended: saving then loading preserves the sequence element-wise in
order, with each record replaced by its flattened form: every field is kept
identically except `date`, whose `Date` object becomes its ISO string; on
records already in flattened form (as after a previous load) the round trip
is the identity. -/
theorem load_save_eq_flatten :
    (∀ ws : List JVal, loadRecords (saveBlob ws) = .ok (ws.map jsonify))
      ∧ (∀ (now : JsDate) (lat lng d du c : ℚ),
        jsonify (mkRunning now lat lng d du c) = flatRunning now lat lng d du c
          ∧ jsonify (flatRunning now lat lng d du c)
            = flatRunning now lat lng d du c)
      ∧ (∀ (now : JsDate) (lat lng d du e : ℚ),
        jsonify (mkCycling now lat lng d du e) = flatCycling now lat lng d du e
          ∧ jsonify (flatCycling now lat lng d du e)
            = flatCycling now lat lng d du e) := by
  refine ⟨?_, ?_, ?_⟩
  · intro ws
    simp [loadRecords, saveBlob, getLocalStorage, jsonParse, jsTruthy,
          Except.map, jsonify, jsonifyList_eq_map]
  · intro now lat lng d du c
    constructor <;>
      simp [mkRunning, flatRunning, jsonify, jsonifyList, jsonifyFields]
  · intro now lat lng d du e
    constructor <;>
      simp [mkCycling, flatCycling, jsonify, jsonifyList, jsonifyFields]

end Mapty
